import Mathlib

/-!
Verification development for the `youngoor` video-source resolver
(`src/youngoor/src/source/bilibili.rs`, `src/youngoor/src/source/mod.rs`,
`src/youngoor/src/error.rs`).

The Rust code is shallowly embedded: pure functions become Lean functions,
fallible code returns `Except`, the network transport and the external URL
parser (`reqwest::Url::parse`) are passed in as explicit function parameters,
and machine integers (`i32`) are modelled as `Int` with the parse routine
enforcing the 32-bit range where the source relies on it.
-/

namespace Youngoor

/-- Model of a parsed `reqwest::Url` as observed by the code under
verification: `host_str()` and `path_segments()` (both return `Option` in
Rust), plus the full rendered URL string used by `to_string()`. -/
structure Url where
  hostStr : Option String
  pathSegments : Option (List String)
  full : String
deriving DecidableEq, Repr

/-- `VideoType` from `source/mod.rs`. -/
inductive VideoType where
  | Flv
  | MP4
deriving DecidableEq, Repr

/-- `VideoSourceError` from `src/error.rs`. The variant `InvalidApiData` is
referenced at `bilibili.rs:56` although its declaration is absent from
`src/error.rs` as provided; it is included so that branch can be embedded. -/
inductive VideoSourceError where
  | ReqwestError (msg : String)
  | NeedLogin
  | RequestError (msg : String)
  | NoSuchResource (ctx : String)
  | InvalidUrl (url : Url)
  | InvalidApiData (msg : String)
deriving DecidableEq, Repr

/-- `UrlType` from `bilibili.rs`: a BV id or a bangumi media id. -/
inductive UrlType where
  | Video (bvid : String)
  | Bangumi (mediaId : Int)
deriving DecidableEq, Repr

/-- Rust `str::eq_ignore_ascii_case`: both `Char.toLower` in Lean and
`eq_ignore_ascii_case` in Rust lower-case exactly the ASCII letters, so
comparing the ASCII-lowered character lists is an exact model. -/
def eqIgnoreAsciiCase (a b : String) : Bool :=
  a.data.map Char.toLower == b.data.map Char.toLower

/-- Rust `str::starts_with` on a string pattern, modelled structurally over
the character lists. -/
def startsWithStr (s p : String) : Bool :=
  p.data.isPrefixOf s.data

/-- Dropping the first `n` characters of a string, modelled structurally
over the character list. -/
def strDrop (s : String) (n : Nat) : String :=
  ⟨s.data.drop n⟩

/-- Rust `str::parse::<i32>`: optional sign, one or more ASCII digits,
value within the `i32` range; anything else fails. -/
def parseI32 (s : String) : Option Int :=
  let (sign, digits) :=
    match s.data with
    | '+' :: rest => ((1 : Int), rest)
    | '-' :: rest => ((-1 : Int), rest)
    | chars => ((1 : Int), chars)
  if digits.isEmpty then none
  else if digits.all Char.isDigit then
    let v : Int := sign * (digits.foldl (fun acc c => acc * 10 + ((c.toNat : Int) - 48)) (0 : Int))
    if -2147483648 ≤ v ∧ v ≤ 2147483647 then some v else none
  else none

/-- `BilibiliSource::url_type` (`bilibili.rs:339-372`). After the
`starts_with("md")` guard the Rust code strips that two-character front via
`strip_prefix`, whose `unwrap_or` fallback is unreachable; `String.drop 2`
embeds it. -/
def url_type (url : Url) : Option UrlType :=
  match url.hostStr with
  | none => none
  | some host =>
    let is_host := eqIgnoreAsciiCase host "www.bilibili.com" ||
      eqIgnoreAsciiCase host "bilibili.com"
    if !is_host then none
    else
      match url.pathSegments with
      | none => none
      | some segs =>
        match segs with
        | "video" :: rest =>
          match rest with
          | [] => none
          | bvid :: _ =>
            if startsWithStr bvid "BV" then some (UrlType.Video bvid) else none
        | "bangumi" :: rest =>
          match rest with
          | "media" :: rest2 =>
            match rest2 with
            | [] => none
            | media_id :: _ =>
              if startsWithStr media_id "md" then
                (parseI32 (strDrop media_id 2)).map UrlType.Bangumi
              else none
          | _ => none
        | _ => none

/-- `DimensionCode` from `bilibili.rs:417-427`. -/
inductive DimensionCode where
  | P240
  | P360
  | P480
  | P720
  | P720F60
  | P1080
  | P1080P
  | P1080F60
  | P4K
deriving DecidableEq, Repr

/-- The discriminant values of `DimensionCode` (`P240 = 6`, …, `P4K = 120`),
i.e. `impl From<DimensionCode> for i32`. -/
def DimensionCode.toInt : DimensionCode → Int
  | .P240 => 6
  | .P360 => 16
  | .P480 => 32
  | .P720 => 64
  | .P720F60 => 74
  | .P1080 => 80
  | .P1080P => 112
  | .P1080F60 => 116
  | .P4K => 120

/-- `impl From<i32> for DimensionCode` (`bilibili.rs:454-469`); unknown
codes default to `P720`. -/
def DimensionCode.fromInt : Int → DimensionCode
  | 6 => .P240
  | 16 => .P360
  | 32 => .P480
  | 64 => .P720
  | 74 => .P720F60
  | 80 => .P1080
  | 112 => .P1080P
  | 116 => .P1080F60
  | 120 => .P4K
  | _ => .P720

/-- `DimensionCode::need_login` (`bilibili.rs:430-435`). -/
def DimensionCode.need_login : DimensionCode → Bool
  | .P240 => false
  | .P360 => false
  | .P480 => false
  | _ => true

/-- `impl Display for DimensionCode` (`bilibili.rs:438-452`). -/
def DimensionCode.display : DimensionCode → String
  | .P240 => "240P 极速"
  | .P360 => "360P 流畅"
  | .P480 => "480P 清晰"
  | .P720 => "720P 高清（登录）"
  | .P720F60 => "720P60 高清（大会员）"
  | .P1080 => "1080P 高清（登录）"
  | .P1080P => "1080P+ 高清（大会员）"
  | .P1080F60 => "1080P60 高清（大会员）"
  | .P4K => "4K 超清（大会员）"

/-- All nine `DimensionCode` constructors, in declaration (ascending
quality) order. -/
def DimensionCode.all : List DimensionCode :=
  [.P240, .P360, .P480, .P720, .P720F60, .P1080, .P1080P, .P1080F60, .P4K]

/-- `BilibiliSource::dimension` (`bilibili.rs:113-145`): the capability list
the source advertises, each entry `(code, label)` built from
`DimensionCode`'s `i32` value and `Display` text. The source lists eight
tiers; `P360` does not appear. -/
def BilibiliSource.dimension : List (Int × String) :=
  [(DimensionCode.P240.toInt, DimensionCode.P240.display),
   (DimensionCode.P480.toInt, DimensionCode.P480.display),
   (DimensionCode.P720.toInt, DimensionCode.P720.display),
   (DimensionCode.P720F60.toInt, DimensionCode.P720F60.display),
   (DimensionCode.P1080.toInt, DimensionCode.P1080.display),
   (DimensionCode.P1080P.toInt, DimensionCode.P1080P.display),
   (DimensionCode.P1080F60.toInt, DimensionCode.P1080F60.display),
   (DimensionCode.P4K.toInt, DimensionCode.P4K.display)]

/-- The Bilibili response envelope (`bilibili.rs:376-383`): numeric code,
message, optional payload (deserialized from either the `data` or the
`result` JSON key). -/
structure Response (T : Type) where
  code : Int
  message : String
  data : Option T
deriving DecidableEq, Repr

/-- `BilibiliClient::wrap_response_null` (`bilibili.rs:310-322`), applied to
the already-deserialized envelope; `url` is `response.url().to_string()`. -/
def wrap_response_null {T : Type} (url : String) (result : Response T) :
    Except VideoSourceError (Option T) :=
  match result.code with
  | 0 => .ok result.data
  | -400 => .error (.RequestError result.message)
  | -404 => .error (.NoSuchResource url)
  | _ => .error (.RequestError result.message)

/-- `BilibiliClient::wrap_response_not_null` (`bilibili.rs:323-328`). -/
def wrap_response_not_null {T : Type} (url : String) (result : Response T) :
    Except VideoSourceError T :=
  match wrap_response_null url result with
  | .error e => .error e
  | .ok d =>
    match d with
    | some v => .ok v
    | none => .error (.NoSuchResource url)

/-- A `reqwest::RequestBuilder` as observed by the embedded code: target URL,
accumulated query pairs, accumulated headers. -/
structure RequestBuilder where
  url : String
  query : List (String × String)
  headers : List (String × String)
deriving DecidableEq, Repr

/-- A raw transport response: HTTP status and body. -/
structure RawResponse where
  status : Nat
  body : String
deriving DecidableEq, Repr

/-- `BilibiliClient::wrap_cookie` (`bilibili.rs:299-309`): when
`with_cookie` is set, attach the stored cookie as a `cookie` header, or fail
with `NeedLogin` when none is stored. -/
def wrap_cookie (cookie : Option String) (request : RequestBuilder)
    (with_cookie : Bool) : Except VideoSourceError RequestBuilder :=
  if with_cookie then
    match cookie with
    | some c => .ok { request with headers := request.headers ++ [("cookie", c)] }
    | none => .error .NeedLogin
  else .ok request

/-- `BilibiliClient::http_request` (`bilibili.rs:287-298`). The transport is
the `send` parameter (it may itself fail, modelling `reqwest` errors), and
`canonicalReason` models `StatusCode::canonical_reason` of the external
`http` crate; a status different from `200 OK` becomes a `RequestError`
carrying the canonical reason phrase, with the literal fallback text used
when no canonical reason exists. -/
def http_request (send : RequestBuilder → Except VideoSourceError RawResponse)
    (canonicalReason : Nat → Option String) (request : RequestBuilder) :
    Except VideoSourceError RawResponse :=
  match send request with
  | .error e => .error e
  | .ok response =>
    if response.status ≠ 200 then
      .error (.RequestError ((canonicalReason response.status).getD "请求错误"))
    else .ok response

/-- `BilibiliClient::bilibili_http_get` (`bilibili.rs:259-276`): extend the
URL's query pairs, wrap the cookie, then send. Returns the call's result
paired with the list of requests actually handed to the transport, so that
"no network call is made" is visible in the model. -/
def bilibili_http_get (cookie : Option String)
    (send : RequestBuilder → Except VideoSourceError RawResponse)
    (canonicalReason : Nat → Option String) (url : String)
    (params : List (String × String)) (with_cookie : Bool) :
    Except VideoSourceError RawResponse × List RequestBuilder :=
  let request : RequestBuilder := { url := url, query := params, headers := [] }
  match wrap_cookie cookie request with_cookie with
  | .error e => (.error e, [])
  | .ok req => (http_request send canonicalReason req, [req])

/-- One entry of the legacy segmented (`durl`) list (`bilibili.rs:571-585`).
Only the fields the embedded logic reads are kept; the passive JSON metadata
fields (`order`, `length`, `size`, `ahead`, `vhead`) are omitted. -/
structure Durl where
  url : String
  backup_url : List String
deriving DecidableEq, Repr

/-- One dash candidate (`bilibili.rs:596-621`). Only the fields the embedded
logic reads are kept; the passive JSON metadata fields (`band_width`,
`mime_type`, `codecs`, `width`, `height`, `frame_rate`, …) are omitted. -/
structure DashItem where
  id : Int
  base_url : String
  backup_url : List String
deriving DecidableEq, Repr

/-- `Dash` (`bilibili.rs:588-594`): parallel video and audio candidate
lists. -/
structure Dash where
  video : List DashItem
  audio : List DashItem
deriving DecidableEq, Repr

/-- `VideoUrlInfo` (`bilibili.rs:544-568`): the decoded stream-address
payload. Only the two shape fields the selection logic reads are kept; the
passive metadata fields (`quality`, `format`, `time_length`,
`accept_quality`, …) are omitted. -/
structure VideoUrlInfo where
  durl : Option (List Durl)
  dash : Option Dash
deriving DecidableEq, Repr

/-- `BilibiliSource::parse_url` (`bilibili.rs:335-337`). The external
`Url::parse` is the `parse` parameter; a parse failure becomes a
`RequestError` with the literal message prefix. -/
def parse_url (parse : String → Option Url) (s : String) :
    Except VideoSourceError Url :=
  match parse s with
  | some u => .ok u
  | none => .error (.RequestError ("无效的地址: " ++ s))

/-- Rust's `Iterator::collect::<Result<Vec<_>, _>>` over a mapped list:
apply `f` left to right, stopping at the first error. -/
def mapCollect {α β : Type} (f : α → Except VideoSourceError β) :
    List α → Except VideoSourceError (List β)
  | [] => .ok []
  | x :: xs =>
    match f x with
    | .error e => .error e
    | .ok y =>
      match mapCollect f xs with
      | .error e => .error e
      | .ok ys => .ok (y :: ys)

/-- The selection half of `BilibiliClient::request_video_url`
(`bilibili.rs:199-230`), operating on the decoded `VideoUrlInfo`; the fetch
half (query construction, HTTP GET, envelope decode) is modelled separately
by `bilibili_http_get` and `wrap_response_not_null`. Returns
`(video URLs, audio URLs)`. -/
def request_video_url (parse : String → Option Url) (bvid : String)
    (dimension : DimensionCode) (result : VideoUrlInfo) :
    Except VideoSourceError (List Url × List Url) :=
  match result.durl with
  | some flv =>
    match mapCollect (fun durl => parse_url parse durl.url) flv with
    | .error e => .error e
    | .ok video_url => .ok (video_url, [])
  | none =>
    match result.dash with
    | some dash =>
      match (dash.video.filterMap (fun video =>
          if video.id = dimension.toInt then some video.base_url else none)).head? with
      | none => .error (.NoSuchResource ("bvid=" ++ bvid))
      | some video_url =>
        match dash.audio.head? with
        | none => .error (.NoSuchResource ("bvid=" ++ bvid))
        | some audioItem =>
          match parse_url parse video_url with
          | .error e => .error e
          | .ok v =>
            match parse_url parse audioItem.base_url with
            | .error e => .error e
            | .ok a => .ok ([v], [a])
    | none => .error (.NoSuchResource ("bvid=" ++ bvid))

/-- `Episode` (`bilibili.rs:657-669`): `title` is the short per-episode
title, `long_title` the full one. -/
structure Episode where
  bvid : String
  cid : Int
  cover : String
  id : Int
  long_title : String
  title : String
deriving DecidableEq, Repr

/-- `PInfo` (`bilibili.rs:386-403`): one part of a plain video. Only the
fields the embedded logic reads are kept; the passive JSON metadata fields
(`page`, `from`, `duration`, `vid`, `weblink`, `dimension`) are omitted. -/
structure PInfo where
  cid : Int
  part : String
deriving DecidableEq, Repr

/-- `BilibiliSourceItem` (`bilibili.rs:670-677`). -/
structure BilibiliSourceItem where
  bvid : String
  cid : Int
  pic : Option Url
  title : String
  video_type : VideoType
deriving DecidableEq, Repr

/-- `VideoInfo` (`source/mod.rs:27-32`): the terminal resolved-media
descriptor. -/
structure VideoInfo where
  pic : Option Url
  title : String
  video : List Url
  audio : List Url
deriving DecidableEq, Repr

/-- The episode-to-item mapping inside the bangumi branch of
`BilibiliSource::video_list` (`bilibili.rs:49-65`): parse the cover URL and
compose the title as `format!("{} {}", episode.title, episode.long_title)`. -/
def episodeToItem (parse : String → Option Url) (video_type : VideoType)
    (e : Episode) : Except VideoSourceError BilibiliSourceItem :=
  match parse e.cover with
  | some u =>
    .ok { bvid := e.bvid, cid := e.cid, pic := some u,
          title := e.title ++ " " ++ e.long_title, video_type := video_type }
  | none =>
    .error (.InvalidApiData
      ("视频地址错误: bvid=" ++ e.bvid ++ ",cid=" ++ toString e.cid))

/-- The part-to-item mapping inside the plain-video branch of
`BilibiliSource::video_list` (`bilibili.rs:78-87`). -/
def pInfoToItem (bvid : String) (video_type : VideoType) (p : PInfo) :
    BilibiliSourceItem :=
  { bvid := bvid, cid := p.cid, pic := none, title := p.part,
    video_type := video_type }

/-- Resolving one queued item inside the `for item in play_list` loop of
`BilibiliSource::video_list` (`bilibili.rs:66-74` and `88-96`): one
stream-address fetch (`fetchInfo`, standing for the HTTP GET plus envelope
decode of `request_video_url`) followed by the URL selection, yielding one
`VideoInfo`. -/
def resolveItem (fetchInfo : String → Int → Except VideoSourceError VideoUrlInfo)
    (parse : String → Option Url) (dimension : DimensionCode)
    (it : BilibiliSourceItem) : Except VideoSourceError VideoInfo :=
  match fetchInfo it.bvid it.cid with
  | .error e => .error e
  | .ok info =>
    match request_video_url parse it.bvid dimension info with
    | .error e => .error e
    | .ok urls =>
      .ok { pic := it.pic, title := it.title, video := urls.1, audio := urls.2 }

/-- Pull-based semantics of the `try_stream!` loop over the queued items
(`bilibili.rs:66-74` / `88-96`): consuming `n` elements runs the loop body
`n` times at most, one stream-address fetch per consumed element, and an
error is yielded once and ends the stream. Returns the yielded elements and
the `(bvid, cid)` keys of the stream-address requests actually issued. -/
def streamLoop (fetchInfo : String → Int → Except VideoSourceError VideoUrlInfo)
    (parse : String → Option Url) (dimension : DimensionCode) :
    List BilibiliSourceItem → Nat →
    List (Except VideoSourceError VideoInfo) × List (String × Int)
  | _, 0 => ([], [])
  | [], _ + 1 => ([], [])
  | item :: rest, n + 1 =>
    match resolveItem fetchInfo parse dimension item with
    | .ok info =>
      let next := streamLoop fetchInfo parse dimension rest n
      (.ok info :: next.1, (item.bvid, item.cid) :: next.2)
    | .error e => ([.error e], [(item.bvid, item.cid)])

/-- The bangumi branch of `BilibiliSource::video_list` (`bilibili.rs:46-75`)
after the two series-lookup calls have produced the episode list: build the
play list eagerly (this is the `collect` at `bilibili.rs:65`, no network
involved), then lazily resolve items as the consumer pulls `n` elements. -/
def video_list_bangumi (fetchInfo : String → Int → Except VideoSourceError VideoUrlInfo)
    (parse : String → Option Url) (video_type : VideoType)
    (dimension : DimensionCode) (episodes : List Episode) (n : Nat) :
    List (Except VideoSourceError VideoInfo) × List (String × Int) :=
  match mapCollect (episodeToItem parse video_type) episodes with
  | .error e => ([.error e], [])
  | .ok items => streamLoop fetchInfo parse dimension items n

/-- The plain-video branch of `BilibiliSource::video_list`
(`bilibili.rs:76-97`) after the part-list call has produced `videos`. -/
def video_list_video (fetchInfo : String → Int → Except VideoSourceError VideoUrlInfo)
    (parse : String → Option Url) (video_type : VideoType)
    (dimension : DimensionCode) (bvid : String) (videos : List PInfo) (n : Nat) :
    List (Except VideoSourceError VideoInfo) × List (String × Int) :=
  streamLoop fetchInfo parse dimension (videos.map (pInfoToItem bvid video_type)) n

/-- A stub for the external `Url::parse` that always succeeds, used for
concrete instantiations. -/
def parseOkStub : String → Option Url :=
  fun s => some ⟨none, none, s⟩

/-- A sample of `StatusCode::canonical_reason` from the external `http`
crate, restricted to a few well-known statuses, for concrete
instantiations. -/
def canonicalReasonSample : Nat → Option String :=
  fun s =>
    if s = 200 then some "OK"
    else if s = 204 then some "No Content"
    else if s = 404 then some "Not Found"
    else if s = 500 then some "Internal Server Error"
    else none

theorem mapCollect_ok_length {α β : Type} (f : α → Except VideoSourceError β) :
    ∀ (xs : List α) (ys : List β), mapCollect f xs = .ok ys → ys.length = xs.length := by
  intro xs
  induction xs with
  | nil =>
    intro ys h
    simp only [mapCollect, Except.ok.injEq] at h
    simp [← h]
  | cons x xs ih =>
    intro ys h
    simp only [mapCollect] at h
    cases hfx : f x with
    | error e => rw [hfx] at h; cases h
    | ok y =>
      rw [hfx] at h
      cases hrest : mapCollect f xs with
      | error e => rw [hrest] at h; cases h
      | ok ys2 =>
        rw [hrest] at h
        cases h
        simp [ih ys2 hrest]

theorem mapCollect_episodeToItem_ok (parse : String → Option Url) (vt : VideoType) :
    ∀ (es : List Episode) (items : List BilibiliSourceItem),
      mapCollect (episodeToItem parse vt) es = .ok items →
      items.map (fun it => (it.bvid, it.cid)) = es.map (fun e => (e.bvid, e.cid))
    ∧ items.map BilibiliSourceItem.title = es.map (fun e => e.title ++ " " ++ e.long_title)
    ∧ items.length = es.length := by
  intro es
  induction es with
  | nil =>
    intro items h
    simp only [mapCollect, Except.ok.injEq] at h
    simp [← h]
  | cons e es ih =>
    intro items h
    simp only [mapCollect] at h
    cases hfe : episodeToItem parse vt e with
    | error err => rw [hfe] at h; cases h
    | ok it =>
      rw [hfe] at h
      cases hrest : mapCollect (episodeToItem parse vt) es with
      | error err => rw [hrest] at h; cases h
      | ok its =>
        rw [hrest] at h
        cases h
        obtain ⟨h1, h2, h3⟩ := ih its hrest
        unfold episodeToItem at hfe
        cases hp : parse e.cover with
        | none => rw [hp] at hfe; cases hfe
        | some u =>
          rw [hp] at hfe
          cases hfe
          simp [h1, h2, h3]

theorem streamLoop_take_one
    (f : String → Int → Except VideoSourceError VideoUrlInfo)
    (p : String → Option Url) (d : DimensionCode) :
    ∀ items : List BilibiliSourceItem,
      (streamLoop f p d items 1).2 = (items.map (fun it => (it.bvid, it.cid))).take 1 := by
  intro items
  cases items with
  | nil => rfl
  | cons it rest =>
    simp only [streamLoop]
    cases h : resolveItem f p d it <;> simp [streamLoop]

theorem streamLoop_all_ok
    (f : String → Int → Except VideoSourceError VideoUrlInfo)
    (p : String → Option Url) (d : DimensionCode) :
    ∀ (items : List BilibiliSourceItem) (n : Nat),
      (∀ it ∈ items, (resolveItem f p d it).isOk = true) →
      streamLoop f p d items n =
        ((items.take n).map (resolveItem f p d),
         (items.take n).map (fun it => (it.bvid, it.cid))) := by
  intro items
  induction items with
  | nil => intro n h; cases n <;> rfl
  | cons it rest ih =>
    intro n h
    cases n with
    | zero => rfl
    | succ m =>
      have hit := h it (by simp)
      cases hres : resolveItem f p d it with
      | error e => rw [hres] at hit; simp [Except.isOk, Except.toBool] at hit
      | ok info =>
        simp only [streamLoop, hres]
        rw [ih m (fun x hx => h x (by simp [hx]))]
        simp [hres]

theorem resolveItem_ok_title
    (f : String → Int → Except VideoSourceError VideoUrlInfo)
    (p : String → Option Url) (d : DimensionCode) (it : BilibiliSourceItem) :
    (resolveItem f p d it).isOk = true →
    (resolveItem f p d it).map VideoInfo.title = .ok it.title := by
  intro hok
  unfold resolveItem at hok ⊢
  cases hf : f it.bvid it.cid with
  | error e => simp only [hf] at hok; simp [Except.isOk, Except.toBool] at hok
  | ok info =>
    simp only [hf] at hok ⊢
    cases hr : request_video_url p it.bvid d info with
    | error e => simp only [hr] at hok; simp [Except.isOk, Except.toBool] at hok
    | ok urls => simp only [hr]; simp [Except.map]

theorem filterMap_first_match (dim : Int) (pre post : List DashItem) (v : DashItem)
    (hpre : ∀ w ∈ pre, w.id ≠ dim) (hv : v.id = dim) :
    ((pre ++ v :: post).filterMap (fun video =>
        if video.id = dim then some video.base_url else none)).head? = some v.base_url := by
  rw [List.filterMap_append]
  have hnil : pre.filterMap (fun video =>
      if video.id = dim then some video.base_url else none) = [] :=
    List.filterMap_eq_nil_iff.mpr (fun w hw => by simp [hpre w hw])
  rw [hnil]
  simp [List.filterMap_cons, hv]

theorem filterMap_no_match (dim : Int) (l : List DashItem)
    (h : ∀ w ∈ l, w.id ≠ dim) :
    l.filterMap (fun video =>
      if video.id = dim then some video.base_url else none) = [] :=
  List.filterMap_eq_nil_iff.mpr (fun w hw => by simp [h w hw])

/-- C1: decoding a response envelope maps code `0` with a payload to success
with that payload, code `0` without a payload (at a call site requiring
data) to `NoSuchResource` carrying the request URL, code `-400` to
`RequestError` with the remote message, code `-404` to `NoSuchResource`
carrying the request URL, and any other non-zero code to `RequestError`
with the remote message. -/
theorem wrap_response_envelope_spec {T : Type} (url m : String) (x : T)
    (d : Option T) (c : Int) :
    wrap_response_null url (⟨0, m, some x⟩ : Response T) = .ok (some x)
  ∧ wrap_response_not_null url (⟨0, m, some x⟩ : Response T) = .ok x
  ∧ wrap_response_not_null url (⟨0, m, none⟩ : Response T) = .error (.NoSuchResource url)
  ∧ wrap_response_null url (⟨-400, m, d⟩ : Response T) = .error (.RequestError m)
  ∧ wrap_response_null url (⟨-404, m, d⟩ : Response T) = .error (.NoSuchResource url)
  ∧ (c ≠ 0 → c ≠ -404 →
      wrap_response_null url (⟨c, m, d⟩ : Response T) = .error (.RequestError m)) := by
  refine ⟨rfl, rfl, rfl, rfl, rfl, ?_⟩
  intro h0 h404
  unfold wrap_response_null
  split
  next h => simp at h; exact absurd h h0
  next h => rfl
  next h => simp at h; exact absurd h h404
  next => rfl

/-- Witness for C1 at concrete envelopes, using `-352` as the "other"
non-zero code. -/
theorem wrap_response_envelope_spec_witness :
    wrap_response_null "u" (⟨0, "m", some 5⟩ : Response Nat) = .ok (some 5)
  ∧ wrap_response_not_null "u" (⟨0, "m", some 5⟩ : Response Nat) = .ok 5
  ∧ wrap_response_not_null "u" (⟨0, "m", none⟩ : Response Nat) = .error (.NoSuchResource "u")
  ∧ wrap_response_null "u" (⟨-400, "m", some 5⟩ : Response Nat) = .error (.RequestError "m")
  ∧ wrap_response_null "u" (⟨-404, "m", some 5⟩ : Response Nat) = .error (.NoSuchResource "u")
  ∧ wrap_response_null "u" (⟨-352, "m", some 5⟩ : Response Nat) = .error (.RequestError "m") := by
  have h := wrap_response_envelope_spec (T := Nat) "u" "m" 5 (some 5) (-352)
  exact ⟨h.1, h.2.1, h.2.2.1, h.2.2.2.1, h.2.2.2.2.1, h.2.2.2.2.2 (by decide) (by decide)⟩

/-- C2: an authenticated request with no stored credential fails with
`NeedLogin` and nothing reaches the transport (the sent-request list is
empty); with a credential stored, the request handed to the transport
carries the credential as a `cookie` header. -/
theorem bilibili_http_get_auth_spec
    (send : RequestBuilder → Except VideoSourceError RawResponse)
    (canonicalReason : Nat → Option String) (url : String)
    (params : List (String × String)) (c : String) :
    bilibili_http_get none send canonicalReason url params true = (.error .NeedLogin, [])
  ∧ bilibili_http_get (some c) send canonicalReason url params true =
      (http_request send canonicalReason
        ({ url := url, query := params, headers := [("cookie", c)] } : RequestBuilder),
       [({ url := url, query := params, headers := [("cookie", c)] } : RequestBuilder)])
  ∧ ("cookie", c) ∈
      ({ url := url, query := params,
         headers := [("cookie", c)] } : RequestBuilder).headers := by
  exact ⟨rfl, rfl, by simp⟩

/-- C8: `need_login` is false for exactly the three lowest tiers
(`P240`, `P360`, `P480`) of the strictly ordered tier set, and true for
every tier at or above the `P720` threshold. -/
theorem need_login_threshold_spec :
    (∀ d : DimensionCode, d.need_login = false ↔
      d ∈ [DimensionCode.P240, DimensionCode.P360, DimensionCode.P480])
  ∧ List.Chain' (fun a b => a.toInt < b.toInt) DimensionCode.all
  ∧ DimensionCode.all.take 3 = [DimensionCode.P240, DimensionCode.P360, DimensionCode.P480]
  ∧ (∀ d : DimensionCode, d.need_login = true ↔ 64 ≤ d.toInt) := by
  refine ⟨fun d => by cases d <;> decide,
    by norm_num [List.chain'_cons, DimensionCode.all, DimensionCode.toInt],
    rfl, fun d => by cases d <;> decide⟩

/-- Counterexample for C7: the tier-to-code translation produces `P360`
(from platform code 16), but the `dimension()` capability list omits it. -/
theorem dimension_missing_tier_counterexample :
    DimensionCode.fromInt 16 = DimensionCode.P360 ∧
    DimensionCode.P360.toInt ∉ BilibiliSource.dimension.map Prod.fst := by
  decide

/-- C7 (amended): the `dimension()` list contains every tier the
translation can produce except `P360`, each with a non-empty label, in
strictly ascending quality order. -/
theorem dimension_capability_spec :
    (∀ d : DimensionCode, d ≠ DimensionCode.P360 →
        DimensionCode.fromInt d.toInt = d ∧
        (d.toInt, d.display) ∈ BilibiliSource.dimension)
  ∧ (∀ p ∈ BilibiliSource.dimension, p.2 ≠ "")
  ∧ List.Chain' (fun a b : Int => a < b) (BilibiliSource.dimension.map Prod.fst) := by
  refine ⟨fun d hd => by cases d <;> first | exact absurd rfl hd | exact ⟨rfl, by decide⟩,
    by decide,
    by norm_num [List.chain'_cons, BilibiliSource.dimension, DimensionCode.toInt]⟩

/-- Witness for C7 at the highest tier. -/
theorem dimension_capability_spec_witness :
    DimensionCode.fromInt DimensionCode.P4K.toInt = DimensionCode.P4K ∧
    (DimensionCode.P4K.toInt, DimensionCode.P4K.display) ∈ BilibiliSource.dimension := by
  exact dimension_capability_spec.1 DimensionCode.P4K (by decide)

/-- Counterexample for C10: status 204 lies inside the 200 range, yet the
wrapper converts it to a `RequestError` — only exactly 200 passes. -/
theorem http_request_not_ok_counterexample :
    http_request (fun _ => .ok ⟨204, ""⟩) canonicalReasonSample
      ⟨"https://api.bilibili.com/x/player/pagelist", [], []⟩ =
      .error (.RequestError "No Content")
  ∧ (200 ≤ 204 ∧ 204 < 300) := by
  exact ⟨rfl, by decide⟩

/-- C10 (amended): a transport status other than exactly 200 is converted
to a `RequestError` carrying the status's canonical reason phrase (with a
fixed fallback text when none exists); a status of exactly 200 is passed
through as success. -/
theorem http_request_status_spec
    (send : RequestBuilder → Except VideoSourceError RawResponse)
    (canonicalReason : Nat → Option String) (request : RequestBuilder)
    (s : Nat) (b : String) (h : send request = .ok ⟨s, b⟩) :
    (s = 200 → http_request send canonicalReason request = .ok ⟨s, b⟩)
  ∧ (s ≠ 200 → http_request send canonicalReason request =
      .error (.RequestError ((canonicalReason s).getD "请求错误"))) := by
  unfold http_request
  rw [h]
  constructor
  · intro h200; simp [h200]
  · intro hne; simp [hne]

/-- Witness for C10 at a concrete 404 response. -/
theorem http_request_status_spec_witness :
    http_request (fun _ => .ok ⟨404, "nf"⟩) canonicalReasonSample ⟨"u", [], []⟩ =
      .error (.RequestError "Not Found") := by
  have h := http_request_status_spec (fun _ => .ok ⟨404, "nf"⟩)
    canonicalReasonSample ⟨"u", [], []⟩ 404 "nf" rfl
  simpa using h.2 (by decide)

/-- Counterexample for C6: `md2147483648` has the shape `md<digits>`, but
its digit string exceeds the 32-bit signed range, so `parse::<i32>` fails
and the classifier yields no classification instead of `Series`. -/
theorem url_type_overflow_counterexample :
    url_type ⟨some "www.bilibili.com", some ["bangumi", "media", "md2147483648"],
      "https://www.bilibili.com/bangumi/media/md2147483648"⟩ = none
  ∧ startsWithStr "md2147483648" "md" = true
  ∧ ("2147483648").data.all Char.isDigit = true
  ∧ strDrop "md2147483648" 2 = "2147483648" := by
  refine ⟨by decide, by decide, by decide, by decide⟩

/-- C6 (amended): on a host matching the bare or `www.`-prefixed platform
domain case-insensitively, `/video/<token>` classifies as `Video(token)`
exactly when the token starts with `BV`; `/bangumi/media/<seg>` with `seg`
starting with `md` classifies as `Series` of the `i32` parse of the digit
suffix (so `md<digits>` yields `Series(<digits>)` exactly when the digits
fit a 32-bit signed integer); `/bangumi/play/...` yields no classification;
and a URL whose host does not match yields no classification. -/
theorem url_type_classification_spec (host full : String) (segs : List String) (u : Url) :
    ((eqIgnoreAsciiCase host "www.bilibili.com" || eqIgnoreAsciiCase host "bilibili.com") = true →
      (∀ token rest, segs = "video" :: token :: rest →
          url_type ⟨some host, some segs, full⟩ =
            if startsWithStr token "BV" then some (UrlType.Video token) else none)
    ∧ (∀ media_id rest, segs = "bangumi" :: "media" :: media_id :: rest →
          startsWithStr media_id "md" = true →
          url_type ⟨some host, some segs, full⟩ =
            (parseI32 (strDrop media_id 2)).map UrlType.Bangumi)
    ∧ (∀ seg rest, segs = "bangumi" :: "play" :: seg :: rest →
          url_type ⟨some host, some segs, full⟩ = none))
  ∧ ((∀ h, u.hostStr = some h →
        (eqIgnoreAsciiCase h "www.bilibili.com" || eqIgnoreAsciiCase h "bilibili.com") = false) →
      url_type u = none) := by
  constructor
  · intro hhost
    refine ⟨?_, ?_, ?_⟩
    · intro token rest hseg
      subst hseg
      simp [url_type, hhost]
    · intro media_id rest hseg hmd
      subst hseg
      simp [url_type, hhost, hmd]
    · intro seg rest hseg
      subst hseg
      simp [url_type, hhost]
  · intro hno
    unfold url_type
    cases hh : u.hostStr with
    | none => rfl
    | some h => simp [hno h hh]

/-- Witness for C6 at concrete URLs, including a mixed-case host. -/
theorem url_type_classification_spec_witness :
    url_type ⟨some "www.bilibili.com", some ["video", "BV1ex411J7GE"], "f1"⟩ =
      some (UrlType.Video "BV1ex411J7GE")
  ∧ url_type ⟨some "WWW.Bilibili.Com", some ["bangumi", "media", "md28229053"], "f2"⟩ =
      some (UrlType.Bangumi 28229053)
  ∧ url_type ⟨some "www.bilibili.com", some ["bangumi", "play", "ep327884"], "f3"⟩ = none
  ∧ url_type ⟨some "www.example.com", some ["video", "BV1ex411J7GE"], "f4"⟩ = none := by
  have h1 := url_type_classification_spec "www.bilibili.com" "f1"
    ["video", "BV1ex411J7GE"] ⟨none, none, ""⟩
  have h2 := url_type_classification_spec "WWW.Bilibili.Com" "f2"
    ["bangumi", "media", "md28229053"] ⟨none, none, ""⟩
  have h3 := url_type_classification_spec "www.bilibili.com" "f3"
    ["bangumi", "play", "ep327884"] ⟨none, none, ""⟩
  have h4 := url_type_classification_spec "www.example.com" "f4"
    ["video", "BV1ex411J7GE"] ⟨some "www.example.com", some ["video", "BV1ex411J7GE"], "f4"⟩
  refine ⟨?_, ?_, ?_, ?_⟩
  · rw [((h1.1 (by decide)).1 "BV1ex411J7GE" [] rfl)]; decide
  · rw [((h2.1 (by decide)).2.1 "md28229053" [] rfl (by decide))]; decide
  · exact (h3.1 (by decide)).2.2 "ep327884" [] rfl
  · exact h4.2 (by intro h hh; cases hh; decide)

/-- A concrete dash response: two video candidates (tags 64 and 32) and two
audio candidates, for concrete instantiations. -/
def dashSample : Dash :=
  ⟨[⟨64, "http://v-720", []⟩, ⟨32, "http://v-480", []⟩],
   [⟨30216, "http://a-1", []⟩, ⟨30232, "http://a-2", []⟩]⟩

/-- C3: for a separate-track (dash) response, the selector returns the first
video candidate whose tag equals the requested resolution code together with
the first audio candidate; it fails with `NoSuchResource` when no video
candidate matches, and fails with `NoSuchResource` when neither the
segmented list nor the dash shape is present. -/
theorem request_video_url_dash_spec (parse : String → Option Url)
    (bvid : String) (dim : DimensionCode) (d : Dash) :
    (∀ (pre post : List DashItem) (v a : DashItem) (rest2 : List DashItem) (pv pa : Url),
        d.video = pre ++ v :: post →
        (∀ w ∈ pre, w.id ≠ dim.toInt) →
        v.id = dim.toInt →
        d.audio = a :: rest2 →
        parse v.base_url = some pv →
        parse a.base_url = some pa →
        request_video_url parse bvid dim ⟨none, some d⟩ = .ok ([pv], [pa]))
  ∧ ((∀ w ∈ d.video, w.id ≠ dim.toInt) →
      request_video_url parse bvid dim ⟨none, some d⟩ =
        .error (.NoSuchResource ("bvid=" ++ bvid)))
  ∧ request_video_url parse bvid dim ⟨none, none⟩ =
      .error (.NoSuchResource ("bvid=" ++ bvid)) := by
  refine ⟨?_, ?_, rfl⟩
  · intro pre post v a rest2 pv pa hsplit hpre hv haudio hpv hpa
    have hhead := filterMap_first_match dim.toInt pre post v hpre hv
    simp only [request_video_url]
    rw [hsplit, hhead, haudio]
    simp [parse_url, hpv, hpa]
  · intro hall
    have hnil := filterMap_no_match dim.toInt d.video hall
    simp only [request_video_url]
    rw [hnil]
    rfl

/-- Witness for C3: the tag-32 candidate is selected at `P480` (skipping the
tag-64 one), the same response fails at `P4K`, and the empty-shape response
fails. -/
theorem request_video_url_dash_spec_witness :
    request_video_url parseOkStub "BV1" DimensionCode.P480 ⟨none, some dashSample⟩ =
      .ok ([⟨none, none, "http://v-480"⟩], [⟨none, none, "http://a-1"⟩])
  ∧ request_video_url parseOkStub "BV1" DimensionCode.P4K ⟨none, some dashSample⟩ =
      .error (.NoSuchResource "bvid=BV1")
  ∧ request_video_url parseOkStub "BV1" DimensionCode.P480 ⟨none, none⟩ =
      .error (.NoSuchResource "bvid=BV1") := by
  have h1 := request_video_url_dash_spec parseOkStub "BV1" DimensionCode.P480 dashSample
  have h2 := request_video_url_dash_spec parseOkStub "BV1" DimensionCode.P4K dashSample
  refine ⟨?_, h2.2.1 (by decide), h1.2.2⟩
  exact h1.1 [⟨64, "http://v-720", []⟩] [] ⟨32, "http://v-480", []⟩
    ⟨30216, "http://a-1", []⟩ [⟨30232, "http://a-2", []⟩]
    ⟨none, none, "http://v-480"⟩ ⟨none, none, "http://a-1"⟩
    rfl (by decide) rfl rfl rfl rfl

/-- Counterexample for C5: a response whose segmented list is present but
empty is accepted and produces a `ResolvedMedia` with an empty `videoUrls`
sequence. -/
theorem resolved_media_nonempty_counterexample :
    request_video_url parseOkStub "bv" DimensionCode.P480 ⟨some [], none⟩ =
      .ok ([], []) := by
  rfl

/-- C5 (amended): every successfully produced `(videoUrls, audioUrls)` pair
has a non-empty `videoUrls` provided the segmented list, when present, is
non-empty (the code accepts a present-but-empty segmented list and then
yields no video URL); `audioUrls` is empty only when the URLs come from the
segmented shape. -/
theorem resolved_media_invariant_spec (parse : String → Option Url)
    (bvid : String) (dim : DimensionCode) (result : VideoUrlInfo)
    (v a : List Url) :
    request_video_url parse bvid dim result = .ok (v, a) →
    (∀ l, result.durl = some l → l ≠ []) →
    v ≠ [] ∧ (a = [] → result.durl.isSome = true) := by
  intro hok hdurl
  obtain ⟨durl, dash⟩ := result
  cases durl with
  | some l =>
    simp only [request_video_url] at hok
    cases hmc : mapCollect (fun durl => parse_url parse durl.url) l with
    | error e => rw [hmc] at hok; cases hok
    | ok vs =>
      rw [hmc] at hok
      simp only [Except.ok.injEq, Prod.mk.injEq] at hok
      obtain ⟨hv, ha⟩ := hok
      have hlen := mapCollect_ok_length (fun durl => parse_url parse durl.url) l vs hmc
      rw [hv] at hlen
      have hne := hdurl l rfl
      constructor
      · intro hnil
        apply hne
        apply List.eq_nil_of_length_eq_zero
        rw [← hlen, hnil]
        rfl
      · intro
        simp
  | none =>
    cases dash with
    | none => cases hok
    | some d =>
      simp only [request_video_url] at hok
      split at hok
      · cases hok
      · split at hok
        · cases hok
        · split at hok
          · cases hok
          · split at hok
            · cases hok
            · simp only [Except.ok.injEq, Prod.mk.injEq] at hok
              obtain ⟨hv, ha⟩ := hok
              constructor
              · intro hnil; rw [← hv] at hnil; cases hnil
              · intro hnil; rw [← ha] at hnil; cases hnil

/-- Witness for C5 at the concrete dash response of `dashSample`. -/
theorem resolved_media_invariant_spec_witness :
    ([⟨none, none, "http://v-480"⟩] : List Url) ≠ []
  ∧ (([⟨none, none, "http://a-1"⟩] : List Url) = [] →
      (VideoUrlInfo.mk none (some dashSample)).durl.isSome = true) := by
  exact resolved_media_invariant_spec parseOkStub "BV1" DimensionCode.P480
    ⟨none, some dashSample⟩ [⟨none, none, "http://v-480"⟩] [⟨none, none, "http://a-1"⟩]
    rfl (fun l hl => by cases hl)

/-- A stand-in stream-address transport returning a fixed one-segment
response, used for concrete instantiations. -/
def fetchStub : String → Int → Except VideoSourceError VideoUrlInfo :=
  fun _ _ => .ok ⟨some [⟨"http://seg-1", []⟩], none⟩

/-- A concrete first episode for instantiations. -/
def epA : Episode := ⟨"b0", 0, "c0", 100, "L0", "T0"⟩

/-- A concrete second episode for instantiations. -/
def epB : Episode := ⟨"b1", 1, "c1", 101, "L1", "T1"⟩

/-- C4: with two or more episodes, fully consuming the stream yields
exactly one resolved element per episode, in the order of the remote
episode list; consuming only the first element issues a stream-address
request only for the first episode and none for the second or any later
one, in both the bangumi and the plain-video branch of `video_list`. -/
theorem video_list_lazy_order_spec
    (fetchInfo : String → Int → Except VideoSourceError VideoUrlInfo)
    (parse : String → Option Url) (vt : VideoType) (dim : DimensionCode)
    (episodes : List Episode) (items : List BilibiliSourceItem)
    (_hlen : 2 ≤ episodes.length)
    (hmc : mapCollect (episodeToItem parse vt) episodes = .ok items)
    (hok : ∀ it ∈ items, (resolveItem fetchInfo parse dim it).isOk = true) :
    (video_list_bangumi fetchInfo parse vt dim episodes episodes.length).1 =
      items.map (resolveItem fetchInfo parse dim)
  ∧ items.map (fun it => (it.bvid, it.cid)) = episodes.map (fun e => (e.bvid, e.cid))
  ∧ (video_list_bangumi fetchInfo parse vt dim episodes 1).2 =
      (episodes.map (fun e => (e.bvid, e.cid))).take 1
  ∧ (∀ (bvid : String) (p0 p1 : PInfo) (ps : List PInfo),
      (video_list_video fetchInfo parse vt dim bvid (p0 :: p1 :: ps) 1).2 =
        [(bvid, p0.cid)]) := by
  obtain ⟨hkeys, htitles, hlens⟩ := mapCollect_episodeToItem_ok parse vt episodes items hmc
  refine ⟨?_, hkeys, ?_, ?_⟩
  · unfold video_list_bangumi
    simp only [hmc]
    rw [streamLoop_all_ok fetchInfo parse dim items episodes.length hok]
    rw [← hlens, List.take_length]
  · unfold video_list_bangumi
    simp only [hmc]
    rw [streamLoop_take_one fetchInfo parse dim items, hkeys]
  · intro bvid p0 p1 ps
    unfold video_list_video
    rw [streamLoop_take_one]
    simp [pInfoToItem]

/-- Witness for C4 at a concrete two-episode series: the stream yields one
element per episode in order, and consuming one element issues exactly the
first episode's stream-address call. -/
theorem video_list_lazy_order_spec_witness :
    (video_list_bangumi fetchStub parseOkStub VideoType.MP4 DimensionCode.P480 [epA, epB] 2).1 =
      List.map (resolveItem fetchStub parseOkStub DimensionCode.P480)
        [⟨"b0", 0, some ⟨none, none, "c0"⟩, "T0 L0", VideoType.MP4⟩,
         ⟨"b1", 1, some ⟨none, none, "c1"⟩, "T1 L1", VideoType.MP4⟩]
  ∧ (video_list_bangumi fetchStub parseOkStub VideoType.MP4 DimensionCode.P480 [epA, epB] 1).2 =
      [("b0", 0)] := by
  have h := video_list_lazy_order_spec fetchStub parseOkStub VideoType.MP4 DimensionCode.P480
    [epA, epB]
    [⟨"b0", 0, some ⟨none, none, "c0"⟩, "T0 L0", VideoType.MP4⟩,
     ⟨"b1", 1, some ⟨none, none, "c1"⟩, "T1 L1", VideoType.MP4⟩]
    (by decide) rfl (by decide)
  exact ⟨h.1, h.2.2.1⟩

/-- Counterexample for C9: the produced title is the short-form title, a
space, then the long-form title — not the long-form followed by the
short-form. -/
theorem episode_title_order_counterexample :
    (episodeToItem parseOkStub VideoType.MP4 ⟨"bv", 1, "cov", 9, "AB", "1"⟩).map
        BilibiliSourceItem.title = .ok "1 AB"
  ∧ ("1 AB" : String) ≠ "AB" ++ "1"
  ∧ ("1 AB" : String) ≠ "AB" ++ " " ++ "1" := by
  refine ⟨rfl, by decide, by decide⟩

/-- C9 (amended): every episode descriptor produced by the series branch
carries the title composed as short-form title, a space, then long-form
title, propagated unchanged to the resolved media elements. -/
theorem video_list_bangumi_title_spec
    (fetchInfo : String → Int → Except VideoSourceError VideoUrlInfo)
    (parse : String → Option Url) (vt : VideoType) (dim : DimensionCode)
    (episodes : List Episode) (items : List BilibiliSourceItem)
    (hmc : mapCollect (episodeToItem parse vt) episodes = .ok items)
    (hok : ∀ it ∈ items, (resolveItem fetchInfo parse dim it).isOk = true) :
    (video_list_bangumi fetchInfo parse vt dim episodes episodes.length).1.map
        (Except.map VideoInfo.title) =
      episodes.map (fun e => .ok (e.title ++ " " ++ e.long_title)) := by
  obtain ⟨hkeys, htitles, hlens⟩ := mapCollect_episodeToItem_ok parse vt episodes items hmc
  unfold video_list_bangumi
  simp only [hmc]
  rw [streamLoop_all_ok fetchInfo parse dim items episodes.length hok]
  rw [← hlens, List.take_length]
  rw [List.map_map]
  have hmapped : items.map ((Except.map VideoInfo.title) ∘ (resolveItem fetchInfo parse dim)) =
      items.map (fun it => Except.ok it.title) := by
    apply List.map_congr_left
    intro it hit
    exact resolveItem_ok_title fetchInfo parse dim it (hok it hit)
  rw [hmapped]
  calc items.map (fun it => Except.ok it.title)
      = (items.map BilibiliSourceItem.title).map Except.ok := by rw [List.map_map]; rfl
    _ = (episodes.map (fun e => e.title ++ " " ++ e.long_title)).map Except.ok := by
        rw [htitles]
    _ = episodes.map (fun e => Except.ok (e.title ++ " " ++ e.long_title)) := by
        rw [List.map_map]; rfl

/-- Witness for C9 at the concrete two-episode series. -/
theorem video_list_bangumi_title_spec_witness :
    (video_list_bangumi fetchStub parseOkStub VideoType.MP4 DimensionCode.P480 [epA, epB] 2).1.map
        (Except.map VideoInfo.title) =
      [Except.ok "T0 L0", Except.ok "T1 L1"] := by
  have h := video_list_bangumi_title_spec fetchStub parseOkStub VideoType.MP4 DimensionCode.P480
    [epA, epB]
    [⟨"b0", 0, some ⟨none, none, "c0"⟩, "T0 L0", VideoType.MP4⟩,
     ⟨"b1", 1, some ⟨none, none, "c1"⟩, "T1 L1", VideoType.MP4⟩]
    rfl (by decide)
  exact h

end Youngoor
